import Mathlib

/-!
Shallow embedding of `src/cubism2/Cubism2InternalModel.ts`.

The wrapper class `Cubism2InternalModel` sequences calls against an opaque
core model (`Live2DModelWebGL`) and sibling collaborators (motion manager,
eye blink, physics, pose).  We embed the wrapper's own code faithfully:

* Calls against the opaque core and collaborators are recorded as events in
  a trace (`Ev`), in the order the wrapper makes them.  Results of opaque
  calls (`motionManager.update`, `coreModel.getParamIndex`) are modelled as
  function-valued fields of the model record, since the wrapper only
  forwards them.
* JavaScript numbers are abstracted by a scalar field `K`; `Math.sin` and
  `Math.PI` are passed as parameters `rsin` and `rpi` so that definitions
  stay executable, and claims about real-valued bounds instantiate them
  with `Real.sin` and `Real.pi`.
-/

namespace Cubism2

/-- Events emitted by the wrapper during `update`: each constructor records
one call the wrapper makes against the core model or a collaborator, or one
event emitted on the wrapper itself. -/
inductive Ev (K : Type) where
  | superUpdate (dt now : K)
  | emit (name : String)
  | motionUpdate (now : K) (result : Bool)
  | saveParam
  | eyeBlinkUpdate (dt : K)
  | addToParamFloat (index : Int) (value : K)
  | setParamFloat (index : Int) (value : K)
  | physicsUpdate (now : K)
  | poseUpdate (dt : K)
  | coreUpdate
  | loadParam
  deriving DecidableEq

/-- State of the wrapper relevant to the per-frame update cycle.  Opaque
collaborator results are function-valued fields; the seven cached parameter
indices mirror the fields assigned in the constructor. -/
structure Cubism2InternalModel (K : Type) where
  getParamIndex : String → Int
  motionManagerUpdate : K → Bool
  hasEyeBlink : Bool
  hasPhysics : Bool
  hasPose : Bool
  focusX : K
  focusY : K
  eyeballXParamIndex : Int
  eyeballYParamIndex : Int
  angleXParamIndex : Int
  angleYParamIndex : Int
  angleZParamIndex : Int
  bodyAngleXParamIndex : Int
  breathParamIndex : Int
  disableCulling : Bool

variable {K : Type}

/-- Embedding of `updateFocus` (source lines 198-205): six
`addToParamFloat` calls against the core model. -/
def updateFocus [Field K] (m : Cubism2InternalModel K) : List (Ev K) :=
  [ Ev.addToParamFloat m.eyeballXParamIndex m.focusX,
    Ev.addToParamFloat m.eyeballYParamIndex m.focusY,
    Ev.addToParamFloat m.angleXParamIndex (m.focusX * 30),
    Ev.addToParamFloat m.angleYParamIndex (m.focusY * 30),
    Ev.addToParamFloat m.angleZParamIndex (m.focusX * m.focusY * (-30)),
    Ev.addToParamFloat m.bodyAngleXParamIndex (m.focusX * 10) ]

/-- Embedding of `updateNaturalMovements` (source lines 207-216): four
`addToParamFloat` calls followed by one `setParamFloat` on the breath
parameter. -/
def updateNaturalMovements [Field K] (rsin : K → K) (rpi : K)
    (m : Cubism2InternalModel K) (_dt now : K) : List (Ev K) :=
  let t := (now / 1000) * 2 * rpi
  [ Ev.addToParamFloat m.angleXParamIndex (15 * rsin (t / 6.5345) * 0.5),
    Ev.addToParamFloat m.angleYParamIndex (8 * rsin (t / 3.5345) * 0.5),
    Ev.addToParamFloat m.angleZParamIndex (10 * rsin (t / 5.5345) * 0.5),
    Ev.addToParamFloat m.bodyAngleXParamIndex (4 * rsin (t / 15.5345) * 0.5),
    Ev.setParamFloat m.breathParamIndex (0.5 + 0.5 * rsin (t / 3.2345)) ]

/-- Embedding of `update` (source lines 169-196), statement by statement.
`eyeBlink?.update(dt)`, `physics?.update(now)` and `pose?.update(dt)` use
optional chaining, reflected by the `hasEyeBlink` / `hasPhysics` /
`hasPose` conditionals. -/
def update [Field K] (rsin : K → K) (rpi : K) (m : Cubism2InternalModel K)
    (dt now : K) : List (Ev K) :=
  let motionUpdated := m.motionManagerUpdate now
  [Ev.superUpdate dt now]
    ++ [Ev.emit ("beforeMotionUpdate")]
    ++ [Ev.motionUpdate now motionUpdated]
    ++ [Ev.emit ("afterMotionUpdate")]
    ++ [Ev.saveParam]
    ++ (if motionUpdated then []
        else if m.hasEyeBlink then [Ev.eyeBlinkUpdate dt] else [])
    ++ updateFocus m
    ++ updateNaturalMovements rsin rpi m dt now
    ++ (if m.hasPhysics then [Ev.physicsUpdate now] else [])
    ++ (if m.hasPose then [Ev.poseUpdate dt] else [])
    ++ [Ev.emit ("beforeModelUpdate")]
    ++ [Ev.coreUpdate]
    ++ [Ev.loadParam]

/-- Concrete wrapper state over the rationals, used to instantiate
conditional theorems. -/
def exampleModel : Cubism2InternalModel ℚ :=
  { getParamIndex := fun _ => 0
    motionManagerUpdate := fun _ => false
    hasEyeBlink := true
    hasPhysics := false
    hasPose := false
    focusX := 0
    focusY := 0
    eyeballXParamIndex := 0
    eyeballYParamIndex := 1
    angleXParamIndex := 2
    angleYParamIndex := 3
    angleZParamIndex := 4
    bodyAngleXParamIndex := 5
    breathParamIndex := 6
    disableCulling := false }

/-- The engine's 2D drawing matrix (`this.drawingMatrix`), with components
`a`, `b`, `c`, `d`, `tx`, `ty`. -/
structure Matrix2D (K : Type) where
  a : K
  b : K
  c : K
  d : K
  tx : K
  ty : K

/-- Initial contents of the module-level `tempMatrixArray` (source lines
10-15): the 4x4 identity in column-major order. -/
def tempMatrixArray (K : Type) [Field K] : Fin 16 → K :=
  ![1, 0, 0, 0,
    0, 1, 0, 0,
    0, 0, 1, 0,
    0, 0, 0, 1]

/-- The six in-place writes `draw` performs on `tempMatrixArray` (source
lines 229-234), in source order. -/
def writeTempMatrix [Field K] (t : Fin 16 → K) (mat : Matrix2D K) :
    Fin 16 → K :=
  Function.update (Function.update (Function.update (Function.update
    (Function.update (Function.update t 0 mat.a) 1 mat.b) 4 mat.c)
      5 mat.d) 12 mat.tx) 13 mat.ty

/-- Events recorded during `draw`: `coreModel.setMatrix` with the matrix it
receives, and `coreModel.draw` with the `disableCulling` value the core
observes during the call. -/
inductive DrawEv (K : Type) where
  | setMatrix (m : Fin 16 → K)
  | coreDraw (disableCulling : Bool)

/-- Embedding of `draw` (source lines 218-240): save `disableCulling`,
force it when a framebuffer is supplied, write the 2D matrix into the
shared temp array, call `setMatrix` then `draw` on the core, and restore
the saved `disableCulling` value.  Returns the wrapper state, the temp
array state and the call trace. -/
def draw [Field K] (m : Cubism2InternalModel K) (temp : Fin 16 → K)
    (mat : Matrix2D K) (framebuffer : Bool) :
    Cubism2InternalModel K × (Fin 16 → K) × List (DrawEv K) :=
  let saved := m.disableCulling
  let m1 := if framebuffer then { m with disableCulling := true } else m
  let temp2 := writeTempMatrix temp mat
  ({ m1 with disableCulling := saved }, temp2,
    [DrawEv.setMatrix temp2, DrawEv.coreDraw m1.disableCulling])

/-- Embedding of the constructor's parameter-index caching (source lines
55-61): each of the seven parameter names is looked up via
`coreModel.getParamIndex` and stored in a field.  Returns the constructed
wrapper state together with the list of names passed to `getParamIndex`,
in call order.  The remaining arguments supply the collaborator results
and the focus state, which the constructor does not compute itself. -/
def mkCubism2InternalModel [Field K] (g : String → Int) (motion : K → Bool)
    (eb ph po : Bool) (fx fy : K) (dc : Bool) :
    Cubism2InternalModel K × List String :=
  let eyeballX := g ("PARAM_EYE_BALL_X")
  let eyeballY := g ("PARAM_EYE_BALL_Y")
  let angleX := g ("PARAM_ANGLE_X")
  let angleY := g ("PARAM_ANGLE_Y")
  let angleZ := g ("PARAM_ANGLE_Z")
  let bodyAngleX := g ("PARAM_BODY_ANGLE_X")
  let breath := g ("PARAM_BREATH")
  ({ getParamIndex := g
     motionManagerUpdate := motion
     hasEyeBlink := eb
     hasPhysics := ph
     hasPose := po
     focusX := fx
     focusY := fy
     eyeballXParamIndex := eyeballX
     eyeballYParamIndex := eyeballY
     angleXParamIndex := angleX
     angleYParamIndex := angleY
     angleZParamIndex := angleZ
     bodyAngleXParamIndex := bodyAngleX
     breathParamIndex := breath
     disableCulling := dc },
   [("PARAM_EYE_BALL_X"), ("PARAM_EYE_BALL_Y"), ("PARAM_ANGLE_X"),
    ("PARAM_ANGLE_Y"), ("PARAM_ANGLE_Z"), ("PARAM_BODY_ANGLE_X"),
    ("PARAM_BREATH")])

/-- Modelled from the spec: `updateFocus` as it would behave if every
parameter access looked the parameter up by name via
`coreModel.getParamIndex` instead of using the cached indices. -/
def updateFocusByName [Field K] (m : Cubism2InternalModel K) : List (Ev K) :=
  [ Ev.addToParamFloat (m.getParamIndex ("PARAM_EYE_BALL_X")) m.focusX,
    Ev.addToParamFloat (m.getParamIndex ("PARAM_EYE_BALL_Y")) m.focusY,
    Ev.addToParamFloat (m.getParamIndex ("PARAM_ANGLE_X")) (m.focusX * 30),
    Ev.addToParamFloat (m.getParamIndex ("PARAM_ANGLE_Y")) (m.focusY * 30),
    Ev.addToParamFloat (m.getParamIndex ("PARAM_ANGLE_Z"))
      (m.focusX * m.focusY * (-30)),
    Ev.addToParamFloat (m.getParamIndex ("PARAM_BODY_ANGLE_X"))
      (m.focusX * 10) ]

/-- Modelled from the spec: `updateNaturalMovements` as it would behave if
every parameter access looked the parameter up by name via
`coreModel.getParamIndex` instead of using the cached indices. -/
def updateNaturalMovementsByName [Field K] (rsin : K → K) (rpi : K)
    (m : Cubism2InternalModel K) (_dt now : K) : List (Ev K) :=
  let t := (now / 1000) * 2 * rpi
  [ Ev.addToParamFloat (m.getParamIndex ("PARAM_ANGLE_X"))
      (15 * rsin (t / 6.5345) * 0.5),
    Ev.addToParamFloat (m.getParamIndex ("PARAM_ANGLE_Y"))
      (8 * rsin (t / 3.5345) * 0.5),
    Ev.addToParamFloat (m.getParamIndex ("PARAM_ANGLE_Z"))
      (10 * rsin (t / 5.5345) * 0.5),
    Ev.addToParamFloat (m.getParamIndex ("PARAM_BODY_ANGLE_X"))
      (4 * rsin (t / 15.5345) * 0.5),
    Ev.setParamFloat (m.getParamIndex ("PARAM_BREATH"))
      (0.5 + 0.5 * rsin (t / 3.2345)) ]

/-- Value of an own property of the core's `drawParamWebGL` object: a
WebGL buffer, `null`, or any other value. -/
inductive PropValue where
  | buffer (id : Nat)
  | nullVal
  | other (v : Int)
  deriving DecidableEq

/-- Whether a property value `instanceof WebGLBuffer` holds. -/
def PropValue.isBuffer : PropValue → Bool
  | .buffer _ => true
  | _ => false

/-- The core's `drawParamWebGL` object: the fields the wrapper writes
directly (`firstDraw`, the GL context set through `setGL`, `glno`), plus
its remaining own properties as a name-value list. -/
structure DrawParamWebGL where
  firstDraw : Bool
  gl : Nat
  glno : Int
  props : List (String × PropValue)
  deriving DecidableEq

/-- The core's clip manager, as far as the wrapper touches it. -/
structure ClipManager where
  curFrameNo : Int
  deriving DecidableEq

/-- Calls `updateWebGLContext` makes against opaque core objects:
`drawParamWebGL.setGL` and `clipManager.getMaskRenderTexture` (the latter
is a closed-runtime call the wrapper only triggers). -/
inductive GLEv where
  | setGL (gl : Nat)
  | getMaskRenderTexture
  deriving DecidableEq

/-- The `for..in` loop of `updateWebGLContext` (source lines 115-119): each
own property whose value is a `WebGLBuffer` is set to `null`. -/
def resetWebGLBuffers : List (String × PropValue) → List (String × PropValue)
  | [] => []
  | p :: rest =>
      (p.1, if p.2.isBuffer then PropValue.nullVal else p.2) ::
        resetWebGLBuffers rest

/-- Embedding of `updateWebGLContext` (source lines 107-125): set
`firstDraw`, pass the new GL context via `setGL`, set `glno`, null out the
WebGL buffers, then set the clip manager's `curFrameNo` and trigger
`getMaskRenderTexture`. -/
def updateWebGLContext (d : DrawParamWebGL) (c : ClipManager) (gl : Nat)
    (glContextID : Int) : DrawParamWebGL × ClipManager × List GLEv :=
  let d1 := { d with firstDraw := true }
  let d2 := { d1 with gl := gl }
  let d3 := { d2 with glno := glContextID }
  let d4 := { d3 with props := resetWebGLBuffers d3.props }
  let c1 := { c with curFrameNo := glContextID }
  (d4, c1, [GLEv.setGL gl, GLEv.getMaskRenderTexture])

/-- Backing state of the `culling` accessor installed by `init` (source
lines 84-89): the wrapper's `disableCulling` flag and the captured
closure variable `culling`. -/
structure CullingCell where
  disableCulling : Bool
  culling : Bool
  deriving DecidableEq

/-- The getter installed on `drawParamWebGL.culling`: reads `false`
whenever `disableCulling` is set, else the captured variable. -/
def readCulling (s : CullingCell) : Bool :=
  if s.disableCulling then false else s.culling

/-- Operations that touch the culling state after `init`: an assignment to
the `culling` property (routed through the installed setter into the
closure variable), or the wrapper toggling `disableCulling`. -/
inductive CullingOp where
  | assignCulling (v : Bool)
  | setDisableCulling (b : Bool)
  deriving DecidableEq

/-- Effect of one operation on the culling state. -/
def applyCullingOp (s : CullingCell) : CullingOp → CullingCell
  | .assignCulling v => { s with culling := v }
  | .setDisableCulling b => { s with disableCulling := b }

/-- Effect of a sequence of operations, in order. -/
def applyCullingOps (s : CullingCell) (ops : List CullingOp) : CullingCell :=
  ops.foldl applyCullingOp s

/-- The value most recently assigned to the `culling` property across a
sequence of operations, with default `d` when nothing was assigned. -/
def lastAssignedCulling (d : Bool) : List CullingOp → Bool
  | [] => d
  | .assignCulling v :: rest => lastAssignedCulling v rest
  | .setDisableCulling _ :: rest => lastAssignedCulling d rest

/-- State of the culling accessor right after `init`, which captures the
raw property value into the closure variable. -/
def initCulling (raw : Bool) (disable : Bool) : CullingCell :=
  { disableCulling := disable, culling := raw }

/-- Heap of vertex arrays: models `Float32Array` identity, so that a
`slice()` (which allocates a fresh array) is distinguishable from the
array held by the core model.  Array contents are rational lists. -/
structure VertexHeap where
  arrays : List (List ℚ)
  deriving DecidableEq

/-- Contents of the array at address `a` (empty when out of range). -/
def VertexHeap.read (h : VertexHeap) (a : Nat) : List ℚ :=
  h.arrays.getD a []

/-- In-place mutation of the array at address `a`. -/
def VertexHeap.write (h : VertexHeap) (a : Nat) (v : List ℚ) : VertexHeap :=
  ⟨h.arrays.set a v⟩

/-- Allocation of a fresh array with the given contents, returning its
address. -/
def VertexHeap.alloc (h : VertexHeap) (v : List ℚ) : VertexHeap × Nat :=
  (⟨h.arrays ++ [v]⟩, h.arrays.length)

/-- The core model as seen by `getDrawableVertices`: the drawable-ID
lookup and, per drawable index, the address of the core-owned array
returned by `getTransformedPoints`. -/
structure CoreDrawables where
  getDrawDataIndex : String → Int
  pointsAddr : Int → Nat

/-- A thrown JavaScript error. -/
inductive JsError where
  | typeError (msg : String)
  deriving DecidableEq

/-- Embedding of `getDrawableVertices` (source lines 159-167): a string
argument is resolved through `getDrawDataIndex` and rejected with a
`TypeError` when the lookup yields `-1`; otherwise the transformed points
of the drawable are copied via `slice()`, modelled as allocating a fresh
array with the same contents. -/
def getDrawableVertices (core : CoreDrawables) (h : VertexHeap)
    (drawIndex : Int ⊕ String) : VertexHeap × Except JsError Nat :=
  match drawIndex with
  | Sum.inr s =>
      let idx := core.getDrawDataIndex s
      if idx = -1 then
        (h, Except.error (JsError.typeError
          (("Unable to find drawable ID: ") ++ toString idx)))
      else
        let r := h.alloc (h.read (core.pointsAddr idx))
        (r.1, Except.ok r.2)
  | Sum.inl i =>
      let r := h.alloc (h.read (core.pointsAddr i))
      (r.1, Except.ok r.2)

/-- Concrete core and heap for instantiating claim C8's theorem: one
drawable whose transformed points live at heap address 0. -/
def exampleCore : CoreDrawables :=
  { getDrawDataIndex := fun _ => 0
    pointsAddr := fun _ => 0 }

/-- Claim C1: every call to `update dt now` performs the per-frame cycle in
the fixed order: `super.update`, emit `beforeMotionUpdate`,
`motionManager.update`, emit `afterMotionUpdate`, `saveParam`, the
conditional eye-blink update, `updateFocus`, `updateNaturalMovements`,
`physics?.update`, `pose?.update`, emit `beforeModelUpdate`,
`coreModel.update`, `coreModel.loadParam`. -/
theorem update_cycle_order [Field K] (rsin : K → K) (rpi : K)
    (m : Cubism2InternalModel K) (dt now : K) :
    update rsin rpi m dt now =
      [Ev.superUpdate dt now, Ev.emit ("beforeMotionUpdate"),
       Ev.motionUpdate now (m.motionManagerUpdate now),
       Ev.emit ("afterMotionUpdate"), Ev.saveParam]
      ++ (if m.motionManagerUpdate now then []
          else if m.hasEyeBlink then [Ev.eyeBlinkUpdate dt] else [])
      ++ updateFocus m
      ++ updateNaturalMovements rsin rpi m dt now
      ++ (if m.hasPhysics then [Ev.physicsUpdate now] else [])
      ++ (if m.hasPose then [Ev.poseUpdate dt] else [])
      ++ [Ev.emit ("beforeModelUpdate"), Ev.coreUpdate, Ev.loadParam] := by
  simp [update]

/-- Claim C3: the eye-blink collaborator is updated during `update` (when
the eye blink is defined) if and only if the motion manager reported no
motion update for that frame; when a motion update occurred the eye blink
is never updated. -/
theorem eyeBlink_iff_no_motion [Field K] (rsin : K → K) (rpi : K)
    (m : Cubism2InternalModel K) (dt now : K) :
    (m.hasEyeBlink = true →
      ((Ev.eyeBlinkUpdate dt ∈ update rsin rpi m dt now) ↔
        m.motionManagerUpdate now = false))
    ∧ (m.motionManagerUpdate now = true →
        Ev.eyeBlinkUpdate dt ∉ update rsin rpi m dt now) := by
  constructor
  · intro hEB
    cases hMot : m.motionManagerUpdate now <;>
      simp [update, updateFocus, updateNaturalMovements, hMot, hEB]
  · intro hMot
    simp [update, updateFocus, updateNaturalMovements, hMot]

/-- Witness for claim C3's theorem at a concrete model whose motion manager
reports no motion update and whose eye blink is defined. -/
theorem eyeBlink_iff_no_motion_witness :
    (Ev.eyeBlinkUpdate (1 : ℚ) ∈ update (fun x => x) 0 exampleModel 1 2) ↔
      exampleModel.motionManagerUpdate 2 = false :=
  (eyeBlink_iff_no_motion (fun x => x) 0 exampleModel 1 2).1 rfl

/-- Claim C4: `updateFocus` makes exactly six `addToParamFloat` calls, in
order: `x` to eyeball-X, `y` to eyeball-Y, `30*x` to angle-X, `30*y` to
angle-Y, `x*y*(-30)` to angle-Z and `x*10` to body-angle-X, where `x` and
`y` are the focus controller's coordinates. -/
theorem updateFocus_six_adds [Field K] (m : Cubism2InternalModel K) :
    updateFocus m =
      [ Ev.addToParamFloat m.eyeballXParamIndex m.focusX,
        Ev.addToParamFloat m.eyeballYParamIndex m.focusY,
        Ev.addToParamFloat m.angleXParamIndex (30 * m.focusX),
        Ev.addToParamFloat m.angleYParamIndex (30 * m.focusY),
        Ev.addToParamFloat m.angleZParamIndex (m.focusX * m.focusY * (-30)),
        Ev.addToParamFloat m.bodyAngleXParamIndex (m.focusX * 10) ]
      ∧ (updateFocus m).length = 6
      ∧ ∀ e ∈ updateFocus m, ∃ i v, e = Ev.addToParamFloat i v := by
  refine ⟨by simp [updateFocus, mul_comm], rfl, ?_⟩
  intro e he
  simp only [updateFocus, List.mem_cons, List.not_mem_nil, or_false] at he
  rcases he with h | h | h | h | h | h <;> exact ⟨_, _, h⟩

/-- Witness for claim C4's theorem (its last conjunct binds the events of
the trace): the trace of `updateFocus` at a concrete model. -/
theorem updateFocus_six_adds_witness :
    updateFocus exampleModel =
      [ Ev.addToParamFloat exampleModel.eyeballXParamIndex exampleModel.focusX,
        Ev.addToParamFloat exampleModel.eyeballYParamIndex exampleModel.focusY,
        Ev.addToParamFloat exampleModel.angleXParamIndex (30 * exampleModel.focusX),
        Ev.addToParamFloat exampleModel.angleYParamIndex (30 * exampleModel.focusY),
        Ev.addToParamFloat exampleModel.angleZParamIndex
          (exampleModel.focusX * exampleModel.focusY * (-30)),
        Ev.addToParamFloat exampleModel.bodyAngleXParamIndex
          (exampleModel.focusX * 10) ]
      ∧ (updateFocus exampleModel).length = 6
      ∧ ∀ e ∈ updateFocus exampleModel, ∃ i v, e = Ev.addToParamFloat i v :=
  updateFocus_six_adds exampleModel

/-- Claim C5: with `t = (now / 1000) * 2 * pi`, `updateNaturalMovements`
sets (overwrites) the breath parameter to `0.5 + 0.5 * sin (t / 3.2345)`,
a value in `[0, 1]`, and increments angle-X, angle-Y, angle-Z and
body-angle-X by `15*sin(t/6.5345)*0.5`, `8*sin(t/3.5345)*0.5`,
`10*sin(t/5.5345)*0.5` and `4*sin(t/15.5345)*0.5` respectively. -/
theorem updateNaturalMovements_breath_and_sway (m : Cubism2InternalModel ℝ)
    (dt now : ℝ) :
    updateNaturalMovements Real.sin Real.pi m dt now =
      [ Ev.addToParamFloat m.angleXParamIndex
          (15 * Real.sin ((now / 1000) * 2 * Real.pi / 6.5345) * 0.5),
        Ev.addToParamFloat m.angleYParamIndex
          (8 * Real.sin ((now / 1000) * 2 * Real.pi / 3.5345) * 0.5),
        Ev.addToParamFloat m.angleZParamIndex
          (10 * Real.sin ((now / 1000) * 2 * Real.pi / 5.5345) * 0.5),
        Ev.addToParamFloat m.bodyAngleXParamIndex
          (4 * Real.sin ((now / 1000) * 2 * Real.pi / 15.5345) * 0.5),
        Ev.setParamFloat m.breathParamIndex
          (0.5 + 0.5 * Real.sin ((now / 1000) * 2 * Real.pi / 3.2345)) ]
    ∧ 0 ≤ 0.5 + 0.5 * Real.sin ((now / 1000) * 2 * Real.pi / 3.2345)
    ∧ 0.5 + 0.5 * Real.sin ((now / 1000) * 2 * Real.pi / 3.2345) ≤ 1 := by
  refine ⟨rfl, ?_, ?_⟩
  · have h := Real.neg_one_le_sin ((now / 1000) * 2 * Real.pi / 3.2345)
    linarith
  · have h := Real.sin_le_one ((now / 1000) * 2 * Real.pi / 3.2345)
    linarith

/-- Claim C2: in every call to `draw`, the matrix passed to
`coreModel.setMatrix` places `a`, `b`, `c`, `d`, `tx`, `ty` at indices 0,
1, 4, 5, 12, 13, the remaining entries are those of the 4x4 identity
(indices 2, 3, 6, 7, 8, 9, 11, 14 are 0 and indices 10 and 15 are 1), and
`setMatrix` is invoked before `coreModel.draw`. -/
theorem draw_matrix_composition [Field K] (m : Cubism2InternalModel K)
    (temp : Fin 16 → K) (mat : Matrix2D K) (framebuffer : Bool)
    (h : ∀ i : Fin 16, i ≠ 0 → i ≠ 1 → i ≠ 4 → i ≠ 5 → i ≠ 12 → i ≠ 13 →
      temp i = tempMatrixArray K i) :
    (draw m temp mat framebuffer).2.2 =
      [DrawEv.setMatrix (writeTempMatrix temp mat),
       DrawEv.coreDraw (framebuffer || m.disableCulling)]
    ∧ writeTempMatrix temp mat 0 = mat.a
    ∧ writeTempMatrix temp mat 1 = mat.b
    ∧ writeTempMatrix temp mat 4 = mat.c
    ∧ writeTempMatrix temp mat 5 = mat.d
    ∧ writeTempMatrix temp mat 12 = mat.tx
    ∧ writeTempMatrix temp mat 13 = mat.ty
    ∧ writeTempMatrix temp mat 2 = 0
    ∧ writeTempMatrix temp mat 3 = 0
    ∧ writeTempMatrix temp mat 6 = 0
    ∧ writeTempMatrix temp mat 7 = 0
    ∧ writeTempMatrix temp mat 8 = 0
    ∧ writeTempMatrix temp mat 9 = 0
    ∧ writeTempMatrix temp mat 11 = 0
    ∧ writeTempMatrix temp mat 14 = 0
    ∧ writeTempMatrix temp mat 10 = 1
    ∧ writeTempMatrix temp mat 15 = 1 := by
  have hdc : (draw m temp mat framebuffer).2.2 =
      [DrawEv.setMatrix (writeTempMatrix temp mat),
       DrawEv.coreDraw (framebuffer || m.disableCulling)] := by
    cases framebuffer <;> simp [draw]
  refine ⟨hdc, ?_, ?_, ?_, ?_, ?_, ?_, ?_, ?_, ?_, ?_, ?_, ?_, ?_, ?_, ?_, ?_⟩
    <;> simp [writeTempMatrix, Function.update]
    <;> rw [h _ (by decide) (by decide) (by decide) (by decide) (by decide) (by decide)]
    <;> rfl

/-- Witness for claim C2's theorem, starting from the initial temp array
(the identity), over the rationals. -/
theorem draw_matrix_composition_witness :
    (draw exampleModel (tempMatrixArray ℚ)
        (Matrix2D.mk 2 3 5 7 11 13) true).2.2 =
      [DrawEv.setMatrix (writeTempMatrix (tempMatrixArray ℚ)
          (Matrix2D.mk 2 3 5 7 11 13)),
       DrawEv.coreDraw (true || exampleModel.disableCulling)]
    ∧ writeTempMatrix (tempMatrixArray ℚ) (Matrix2D.mk 2 3 5 7 11 13) 0 = 2
    ∧ writeTempMatrix (tempMatrixArray ℚ) (Matrix2D.mk 2 3 5 7 11 13) 1 = 3
    ∧ writeTempMatrix (tempMatrixArray ℚ) (Matrix2D.mk 2 3 5 7 11 13) 4 = 5
    ∧ writeTempMatrix (tempMatrixArray ℚ) (Matrix2D.mk 2 3 5 7 11 13) 5 = 7
    ∧ writeTempMatrix (tempMatrixArray ℚ) (Matrix2D.mk 2 3 5 7 11 13) 12 = 11
    ∧ writeTempMatrix (tempMatrixArray ℚ) (Matrix2D.mk 2 3 5 7 11 13) 13 = 13
    ∧ writeTempMatrix (tempMatrixArray ℚ) (Matrix2D.mk 2 3 5 7 11 13) 2 = 0
    ∧ writeTempMatrix (tempMatrixArray ℚ) (Matrix2D.mk 2 3 5 7 11 13) 3 = 0
    ∧ writeTempMatrix (tempMatrixArray ℚ) (Matrix2D.mk 2 3 5 7 11 13) 6 = 0
    ∧ writeTempMatrix (tempMatrixArray ℚ) (Matrix2D.mk 2 3 5 7 11 13) 7 = 0
    ∧ writeTempMatrix (tempMatrixArray ℚ) (Matrix2D.mk 2 3 5 7 11 13) 8 = 0
    ∧ writeTempMatrix (tempMatrixArray ℚ) (Matrix2D.mk 2 3 5 7 11 13) 9 = 0
    ∧ writeTempMatrix (tempMatrixArray ℚ) (Matrix2D.mk 2 3 5 7 11 13) 11 = 0
    ∧ writeTempMatrix (tempMatrixArray ℚ) (Matrix2D.mk 2 3 5 7 11 13) 14 = 0
    ∧ writeTempMatrix (tempMatrixArray ℚ) (Matrix2D.mk 2 3 5 7 11 13) 10 = 1
    ∧ writeTempMatrix (tempMatrixArray ℚ) (Matrix2D.mk 2 3 5 7 11 13) 15 = 1 :=
  draw_matrix_composition exampleModel (tempMatrixArray ℚ)
    (Matrix2D.mk 2 3 5 7 11 13) true (fun _ _ _ _ _ _ _ => rfl)

/-- Claim C10: `draw` restores `disableCulling` to its pre-call value (so
the whole wrapper state is unchanged), and the core draw call observes
`disableCulling = true` exactly when a framebuffer was supplied or it was
already set. -/
theorem draw_preserves_disableCulling [Field K] (m : Cubism2InternalModel K)
    (temp : Fin 16 → K) (mat : Matrix2D K) (framebuffer : Bool) :
    (draw m temp mat framebuffer).1 = m
    ∧ (draw m temp mat framebuffer).2.2 =
        [DrawEv.setMatrix (writeTempMatrix temp mat),
         DrawEv.coreDraw (framebuffer || m.disableCulling)] := by
  cases framebuffer <;> simp [draw]

/-- Claim C6: the constructor looks each of the seven parameter names up
via `getParamIndex` exactly once, and `updateFocus` and
`updateNaturalMovements` on the constructed state behave exactly as if
each access looked the parameter up by name. -/
theorem constructor_caches_param_indices [Field K] (rsin : K → K) (rpi : K)
    (g : String → Int) (motion : K → Bool) (eb ph po : Bool) (fx fy : K)
    (dc : Bool) (dt now : K) :
    ((mkCubism2InternalModel g motion eb ph po fx fy dc).2.count
        ("PARAM_EYE_BALL_X") = 1
      ∧ (mkCubism2InternalModel g motion eb ph po fx fy dc).2.count
          ("PARAM_EYE_BALL_Y") = 1
      ∧ (mkCubism2InternalModel g motion eb ph po fx fy dc).2.count
          ("PARAM_ANGLE_X") = 1
      ∧ (mkCubism2InternalModel g motion eb ph po fx fy dc).2.count
          ("PARAM_ANGLE_Y") = 1
      ∧ (mkCubism2InternalModel g motion eb ph po fx fy dc).2.count
          ("PARAM_ANGLE_Z") = 1
      ∧ (mkCubism2InternalModel g motion eb ph po fx fy dc).2.count
          ("PARAM_BODY_ANGLE_X") = 1
      ∧ (mkCubism2InternalModel g motion eb ph po fx fy dc).2.count
          ("PARAM_BREATH") = 1)
    ∧ updateFocus (mkCubism2InternalModel g motion eb ph po fx fy dc).1 =
        updateFocusByName (mkCubism2InternalModel g motion eb ph po fx fy dc).1
    ∧ updateNaturalMovements rsin rpi
          (mkCubism2InternalModel g motion eb ph po fx fy dc).1 dt now =
        updateNaturalMovementsByName rsin rpi
          (mkCubism2InternalModel g motion eb ph po fx fy dc).1 dt now := by
  refine ⟨⟨?_, ?_, ?_, ?_, ?_, ?_, ?_⟩, rfl, rfl⟩ <;> rfl

theorem resetWebGLBuffers_eq_map (l : List (String × PropValue)) :
    resetWebGLBuffers l =
      l.map (fun p => (p.1, if p.2.isBuffer then PropValue.nullVal else p.2)) := by
  induction l with
  | nil => rfl
  | cons p rest ih => simp [resetWebGLBuffers, ih]

/-- Claim C7: `updateWebGLContext` sets `firstDraw` to `true`, passes the
new GL context and context ID to `drawParamWebGL` (`setGL` and `glno`),
nulls exactly the own properties holding a `WebGLBuffer` while every other
own property keeps its value, and afterwards the clip manager's
`curFrameNo` equals the context ID. -/
theorem updateWebGLContext_resets_buffers (d : DrawParamWebGL)
    (c : ClipManager) (gl : Nat) (glContextID : Int) :
    (updateWebGLContext d c gl glContextID).1.firstDraw = true
    ∧ (updateWebGLContext d c gl glContextID).1.gl = gl
    ∧ (updateWebGLContext d c gl glContextID).1.glno = glContextID
    ∧ (updateWebGLContext d c gl glContextID).1.props =
        d.props.map
          (fun p => (p.1, if p.2.isBuffer then PropValue.nullVal else p.2))
    ∧ (updateWebGLContext d c gl glContextID).2.1.curFrameNo = glContextID
    ∧ (updateWebGLContext d c gl glContextID).2.2 =
        [GLEv.setGL gl, GLEv.getMaskRenderTexture] := by
  refine ⟨rfl, rfl, rfl, ?_, rfl, rfl⟩
  exact resetWebGLBuffers_eq_map d.props

theorem applyCullingOps_culling (s : CullingCell) (ops : List CullingOp) :
    (applyCullingOps s ops).culling = lastAssignedCulling s.culling ops := by
  induction ops generalizing s with
  | nil => rfl
  | cons op rest ih =>
      cases op <;> simp [applyCullingOps, List.foldl, applyCullingOp,
        lastAssignedCulling] <;> exact ih _

/-- Claim C9: after `init`, reading `drawParamWebGL.culling` returns
`false` whenever `disableCulling` is set, and otherwise the value most
recently assigned to the property (defaulting to the value captured at
`init`); assignments made while `disableCulling` is set are retained, and
this holds after every sequence of subsequent operations. -/
theorem culling_accessor_invariant (raw disable : Bool)
    (ops : List CullingOp) :
    readCulling (applyCullingOps (initCulling raw disable) ops) =
      if (applyCullingOps (initCulling raw disable) ops).disableCulling
      then false
      else lastAssignedCulling raw ops := by
  rw [readCulling, applyCullingOps_culling]
  rfl

theorem getD_append_length (l : List (List ℚ)) (a : List ℚ) :
    (l ++ [a]).getD l.length [] = a := by
  induction l with
  | nil => rfl
  | cons x xs ih => simp [ih]

theorem getD_append_lt (l l2 : List (List ℚ)) (p : Nat) (hp : p < l.length) :
    (l ++ l2).getD p [] = l.getD p [] := by
  induction l generalizing p with
  | nil => exact absurd hp (Nat.not_lt_zero p)
  | cons x xs ih =>
      cases p with
      | zero => rfl
      | succ q => simpa using ih q (Nat.lt_of_succ_lt_succ hp)

theorem getD_set_ne (l : List (List ℚ)) (i p : Nat) (v : List ℚ)
    (h : p ≠ i) : (l.set i v).getD p [] = l.getD p [] := by
  induction l generalizing i p with
  | nil => rfl
  | cons x xs ih =>
      cases i with
      | zero =>
          cases p with
          | zero => exact absurd rfl h
          | succ q => rfl
      | succ j =>
          cases p with
          | zero => rfl
          | succ q =>
              simpa using ih j q (fun hq => h (congrArg Nat.succ hq))

/-- Claim C8: a string argument whose drawable lookup yields `-1` makes
`getDrawableVertices` throw a `TypeError` with the heap unchanged; a
resolvable argument yields a fresh copy of the drawable's transformed
points, at an address distinct from the core-owned array, so mutating the
returned array leaves the core's vertex data intact. -/
theorem getDrawableVertices_fresh_copy (core : CoreDrawables)
    (h : VertexHeap) (s : String) (v : List ℚ) :
    (core.getDrawDataIndex s = -1 →
      getDrawableVertices core h (Sum.inr s) =
        (h, Except.error (JsError.typeError
          (("Unable to find drawable ID: ") ++
            toString (core.getDrawDataIndex s)))))
    ∧ (core.getDrawDataIndex s ≠ -1 →
        core.pointsAddr (core.getDrawDataIndex s) < h.arrays.length →
        (getDrawableVertices core h (Sum.inr s)).2 =
            Except.ok h.arrays.length
        ∧ (getDrawableVertices core h (Sum.inr s)).1.read h.arrays.length =
            h.read (core.pointsAddr (core.getDrawDataIndex s))
        ∧ h.arrays.length ≠ core.pointsAddr (core.getDrawDataIndex s)
        ∧ (((getDrawableVertices core h (Sum.inr s)).1.write
              h.arrays.length v).read
              (core.pointsAddr (core.getDrawDataIndex s)) =
            h.read (core.pointsAddr (core.getDrawDataIndex s)))) := by
  constructor
  · intro h1
    simp [getDrawableVertices, h1]
  · intro h1 h2
    have hres : getDrawableVertices core h (Sum.inr s) =
        (⟨h.arrays ++ [h.read (core.pointsAddr (core.getDrawDataIndex s))]⟩,
          Except.ok h.arrays.length) := by
      simp [getDrawableVertices, h1, VertexHeap.alloc]
    refine ⟨?_, ?_, (Nat.ne_of_lt h2).symm, ?_⟩
    · rw [hres]
    · rw [hres]
      simp only [VertexHeap.read]
      exact getD_append_length h.arrays _
    · rw [hres]
      simp only [VertexHeap.write, VertexHeap.read]
      rw [getD_set_ne _ _ _ _ (Nat.ne_of_lt h2), getD_append_lt _ _ _ h2]

/-- Witness for claim C8's theorem: the drawable resolves to index 0,
whose points array is heap address 0, and mutating the returned copy
leaves it intact. -/
theorem getDrawableVertices_fresh_copy_witness :
    (getDrawableVertices exampleCore ⟨[[1, 2]]⟩ (Sum.inr ("face"))).2 =
        Except.ok 1
    ∧ (getDrawableVertices exampleCore ⟨[[1, 2]]⟩
          (Sum.inr ("face"))).1.read 1 =
        VertexHeap.read ⟨[[1, 2]]⟩ 0
    ∧ (1 : Nat) ≠ 0
    ∧ ((getDrawableVertices exampleCore ⟨[[1, 2]]⟩
          (Sum.inr ("face"))).1.write 1 [9]).read 0 =
        VertexHeap.read ⟨[[1, 2]]⟩ 0 :=
  (getDrawableVertices_fresh_copy exampleCore ⟨[[1, 2]]⟩ ("face") [9]).2
    (by decide) (by decide)

end Cubism2
